import Mathlib

/-!
Verification of the TRex NDR benchmark driver
(`scripts/automation/trex_control_plane/stl/examples/stl_ndr_bench_tool.py`).

The script is orchestration glue: it parses CLI options, connects an
`STLClient` to a traffic-generator server, maps ports, builds and attaches
streams, constructs an `NdrBenchConfig`, and delegates the search to the
external `ndr_bench` module.  We embed the driver as a function from an
abstract environment (the external client calls, the port map returned by
`stl_map_ports`, the outcome of `find_ndr`, and the serialized results) to
a trace of external-effect events plus a final outcome (normal return with
a Python value, `sys.exit` propagation, or an uncaught Python exception).
-/

namespace Ndr

/-- A loosely-typed Python scalar, as passed through the CLI plumbing.
Used for the values whose Python type varies with the command line
(`core_mask` is `None` or `int`, `size` and `drop_rate_interval` default to
`int` but parse as `str`, `vm` is a `str` ordinarily but the claim about
`build_streams_for_bench` also speaks of `None`/`False`). -/
inductive PyVal where
  | none
  | int (n : Int)
  | str (s : String)
  | rat (q : Rat)
  | bool (b : Bool)
deriving DecidableEq, Repr

/-- Python truthiness of a `PyVal` (`if vm:` etc.). -/
def PyVal.truthy : PyVal → Bool
  | .none => false
  | .int n => n != 0
  | .str s => s != ""
  | .rat q => q != 0
  | .bool b => b

/-- Truthiness of an optional string argument (`if src_start_ip:`):
`None` and the empty string are falsy. -/
def optStrTruthy : Option String → Bool
  | Option.none => false
  | Option.some s => s != ""

/-- Truthiness of the optional `--ports` list (`if ports_list:`):
`None` and the empty list are falsy. -/
def pyListTruthy : Option (List Int) → Bool
  | Option.none => false
  | Option.some l => !l.isEmpty

/-- Uncaught Python exceptions that the driver can raise. -/
inductive PyError where
  | nameError (name : String)
  | indexError
deriving DecidableEq, Repr

/-- `start`/`end` pair of an `STLBench.ip_range` entry. -/
structure IpPair where
  start : String
  end_ : String
deriving DecidableEq, Repr

/-- The `ip_range` dictionary of `ndr.STLBench` (keys `'src'` and `'dst'`). -/
structure IpRange where
  src : IpPair
  dst : IpPair
deriving DecidableEq, Repr

/-- The slice of `ndr.STLBench` state the driver touches: its `ip_range`. -/
structure STLBench where
  ip_range : IpRange
deriving DecidableEq, Repr

/-- A stream object.  Streams returned by `STLBench.get_streams` are opaque
(`bench`); the one stream this file constructs itself is the single-burst
latency stream (`singleBurstLatency`) with its concrete parameters. -/
inductive Stream where
  | bench (id : Nat)
  | singleBurstLatency (name : String) (pg_id : Nat) (total_pkts : Nat) (pps : Nat)
      (pkt : String)
deriving DecidableEq, Repr

/-- The latency stream built when the latency flag is set:
`STLStream(name='rx', flow_stats=STLFlowLatencyStats(pg_id=5),`
`mode=STLTXSingleBurst(total_pkts=1000, pps=1000))` over the
Ether/IP/UDP packet with a 16-byte payload. -/
def latencyStream : Stream :=
  Stream.singleBurstLatency "rx" 5 1000 1000
    "Ether/IP(src=16.0.0.1,dst=48.0.0.1)/UDP(dport=12,sport=1025)/at_least_16_bytes_payload_needed"

/-- The keyword arguments the driver passes to `ndr.NdrBenchConfig`.
Note: `setup_name` and `max_iterations` are not among them. -/
structure NdrBenchConfig where
  ports : List Int
  pkt_size : PyVal
  vm : PyVal
  iteration_duration : Rat
  q_ful_resolution : Rat
  first_run_duration : Rat
  pdr : Rat
  pdr_error : Rat
  ndr_results : Int
  latency : Bool
  core_mask : PyVal
  verbose : Bool
  drop_rate_interval : PyVal
deriving DecidableEq, Repr

/-- Externally observable events of a driver run, in program order. -/
inductive Event where
  | print (s : String)
  | connect
  | reset
  | map_ports
  | select_ports (dir_0 : List Int) (ports : List Int)
  | build_streams (streams : List Stream)
  | add_streams (streams : List Stream) (ports : List Int)
  | mk_config (config : NdrBenchConfig)
  | find_ndr
  | print_final (latency : Bool)
  | disconnect
deriving DecidableEq, Repr

/-- How a driver run ends: a normal Python return (`ret none` is Python
`None`), a propagated `sys.exit(code)`, or an uncaught exception. -/
inductive Outcome where
  | ret (v : Option String)
  | exit (code : Int)
  | exc (e : PyError)
deriving DecidableEq, Repr

/-- Result of the external `b.find_ndr()` call: normal return, or an
`STLError` carrying the printed message. -/
inductive SearchOutcome where
  | ok
  | stlError (msg : String)
deriving DecidableEq, Repr

/-- The abstract environment: everything the external `trex_stl_lib` client
and `ndr_bench` module contribute to a run. -/
structure Env where
  /-- a fresh `ndr.STLBench()` as constructed by the external module -/
  mkSTLBench : STLBench
  /-- `stl_bench.get_streams(size, vm, direction)` on the (possibly
  ip-range-overridden) bench object -/
  get_streams : STLBench → PyVal → PyVal → Int → List Stream
  /-- `stl_map_ports(c)['bi']`: the discovered bidirectional port pairs -/
  bi : List (Int × Int)
  /-- outcome of the external `b.find_ndr()` search -/
  findNdrOutcome : SearchOutcome
  /-- `b.results.to_json()` -/
  results_json : String

/-- `build_streams_for_bench(size, vm, src_start_ip, src_stop_ip,`
`dest_start_ip, dest_stop_ip, direction)`.  In the source, the final line
`streams = stl_bench.get_streams(size, vm, direction)` sits outside the
`if vm:` block, so when `vm` is falsy the local `stl_bench` was never bound
and the line raises `NameError`; when `vm` is truthy the bench is built,
its ip-range overridden by each truthy ip argument, and `get_streams`
succeeds. -/
def build_streams_for_bench (env : Env) (size : PyVal) (vm : PyVal)
    (src_start_ip src_stop_ip dest_start_ip dest_stop_ip : Option String)
    (direction : Int) : Except PyError (List Stream) :=
  if vm.truthy then
    let b0 := env.mkSTLBench
    let b1 := if optStrTruthy src_start_ip then
        { b0 with ip_range := { b0.ip_range with
            src := { b0.ip_range.src with start := src_start_ip.getD "" } } } else b0
    let b2 := if optStrTruthy src_stop_ip then
        { b1 with ip_range := { b1.ip_range with
            src := { b1.ip_range.src with end_ := src_stop_ip.getD "" } } } else b1
    let b3 := if optStrTruthy dest_start_ip then
        { b2 with ip_range := { b2.ip_range with
            dst := { b2.ip_range.dst with start := dest_start_ip.getD "" } } } else b2
    let b4 := if optStrTruthy dest_stop_ip then
        { b3 with ip_range := { b3.ip_range with
            dst := { b3.ip_range.dst with end_ := dest_stop_ip.getD "" } } } else b3
    Except.ok (env.get_streams b4 size vm direction)
  else
    Except.error (PyError.nameError "stl_bench")

/-- Elements of `l` at even indices: `[l[i] for i in range(0, len(l), 2)]`. -/
def evenIdx : List Int → List Int
  | [] => []
  | [a] => [a]
  | a :: _ :: rest => a :: evenIdx rest

/-- Port selection after `stl_map_ports`: the explicit list (with `dir_0`
its even-indexed elements) when `ports_list` is truthy, else the first
bidirectional pair `table['bi'][0]` (raising `IndexError` when the port map
has no such pair). -/
def selectPorts (bi : List (Int × Int)) (ports_list : Option (List Int)) :
    Except PyError (List Int × List Int) :=
  if pyListTruthy ports_list then
    let l := ports_list.getD []
    Except.ok (evenIdx l, l)
  else
    match bi with
    | [] => Except.error PyError.indexError
    | (a, b) :: _ => Except.ok ([a], [a, b])

/-- The stream list attached to the ports: the builder's streams, with the
latency stream appended when the latency flag is set. -/
def streamsFor (latency : Bool) (streams0 : List Stream) : List Stream :=
  if latency then streams0 ++ [latencyStream] else streams0

/-- `print("\nTest has passed :-)\n")`. -/
def passMsg : String := "\nTest has passed :-)\n"

/-- `print("\nTest has failed :-(\n")`. -/
def failMsg : String := "\nTest has failed :-(\n"

/-- `ndr_benchmark_test(server, core_mask, pdr, iteration_duration,`
`ndr_results, setup_name, first_run_duration, verbose, pdr_error,`
`q_ful_resolution, latency, vm, pkt_size, fe_src_start_ip, fe_src_stop_ip,`
`fe_dst_start_ip, fe_dst_stop_ip, drop_rate_interval, output, ports_list)`.

Embeds the driver body:
odd-length truthy port list → print and return `None`;
otherwise connect, reset, map ports, select ports, build streams
(`NameError` propagates uncaught when `vm` is falsy), optionally append the
latency stream, `add_streams`, construct the config, then
`try: find_ndr ... except STLError: print(e); sys.exit(1)`
`finally: disconnect`, then print pass/fail and return the JSON results
exactly when `output == 'json'`. -/
def ndr_benchmark_test (env : Env) (server : String) (core_mask : PyVal)
    (pdr : Rat) (iteration_duration : Rat) (ndr_results : Int)
    (setup_name : String) (first_run_duration : Rat) (verbose : Bool)
    (pdr_error : Rat) (q_ful_resolution : Rat) (latency : Bool) (vm : PyVal)
    (pkt_size : PyVal)
    (fe_src_start_ip fe_src_stop_ip fe_dst_start_ip fe_dst_stop_ip : Option String)
    (drop_rate_interval : PyVal) (output : Option String)
    (ports_list : Option (List Int)) : List Event × Outcome :=
  if pyListTruthy ports_list && ((ports_list.getD []).length % 2 != 0) then
    ([Event.print "illegal ports list"], Outcome.ret Option.none)
  else
    let pre : List Event := [Event.connect, Event.reset, Event.map_ports]
    match selectPorts env.bi ports_list with
    | Except.error e => (pre, Outcome.exc e)
    | Except.ok (dir_0, ports) =>
      match build_streams_for_bench env pkt_size vm fe_src_start_ip fe_src_stop_ip
          fe_dst_start_ip fe_dst_stop_ip 0 with
      | Except.error e =>
        (pre ++ [Event.select_ports dir_0 ports], Outcome.exc e)
      | Except.ok streams0 =>
        let streams := streamsFor latency streams0
        let config : NdrBenchConfig :=
          { ports := ports, pkt_size := pkt_size, vm := vm,
            iteration_duration := iteration_duration,
            q_ful_resolution := q_ful_resolution,
            first_run_duration := first_run_duration, pdr := pdr,
            pdr_error := pdr_error, ndr_results := ndr_results,
            latency := latency, core_mask := core_mask, verbose := verbose,
            drop_rate_interval := drop_rate_interval }
        let pre2 := pre ++ [Event.select_ports dir_0 ports,
          Event.build_streams streams0, Event.add_streams streams dir_0,
          Event.mk_config config]
        match env.findNdrOutcome with
        | SearchOutcome.ok =>
          (pre2 ++ [Event.find_ndr] ++
             (if verbose then [Event.print_final latency] else []) ++
             [Event.disconnect, Event.print passMsg],
           Outcome.ret (if output = Option.some "json"
             then Option.some env.results_json else Option.none))
        | SearchOutcome.stlError msg =>
          (pre2 ++ [Event.find_ndr, Event.print msg, Event.disconnect],
           Outcome.exit 1)

/-- The parsed command line, one field per `parser.add_argument` entry. -/
structure Args where
  server : String
  core_mask : PyVal
  pdr : Rat
  iteration_duration : Rat
  ndr_results : Int
  setup_name : String
  first_run_duration : Rat
  verbose : Bool
  max_iterations : Int
  pdr_error : Rat
  q_ful_resolution : Rat
  latency : Bool
  vm : PyVal
  size : PyVal
  fe_src_start_ip : Option String
  fe_src_stop_ip : Option String
  fe_dst_start_ip : Option String
  fe_dst_stop_ip : Option String
  drop_rate_interval : PyVal
  output : Option String
  ports_list : Option (List Int)

/-- The script's toplevel call
`ndr_benchmark_test(args.server, ..., args.ports_list)`:
`args.max_iterations` is never passed, and `args.setup_name` is passed but
unused by the body. -/
def run_tool (env : Env) (args : Args) : List Event × Outcome :=
  ndr_benchmark_test env args.server args.core_mask args.pdr
    args.iteration_duration args.ndr_results args.setup_name
    args.first_run_duration args.verbose args.pdr_error
    args.q_ful_resolution args.latency args.vm args.size
    args.fe_src_start_ip args.fe_src_stop_ip args.fe_dst_start_ip
    args.fe_dst_stop_ip args.drop_rate_interval args.output args.ports_list

/-- The config object the driver constructs from the parsed arguments and
the selected ports. -/
def configOf (args : Args) (p : List Int) : NdrBenchConfig :=
  { ports := p, pkt_size := args.size, vm := args.vm,
    iteration_duration := args.iteration_duration,
    q_ful_resolution := args.q_ful_resolution,
    first_run_duration := args.first_run_duration, pdr := args.pdr,
    pdr_error := args.pdr_error, ndr_results := args.ndr_results,
    latency := args.latency, core_mask := args.core_mask,
    verbose := args.verbose, drop_rate_interval := args.drop_rate_interval }

/-- The event trace of a run up to (and including) entering the search:
everything before the `try` block. -/
def setupTrace (args : Args) (d p : List Int) (s0 : List Stream) : List Event :=
  [Event.connect, Event.reset, Event.map_ports, Event.select_ports d p,
   Event.build_streams s0, Event.add_streams (streamsFor args.latency s0) d,
   Event.mk_config (configOf args p)]

/-- The event trace of the `try`/`except`/`finally` block and the epilogue,
determined by the search outcome. -/
def searchTail (env : Env) (args : Args) : List Event :=
  match env.findNdrOutcome with
  | SearchOutcome.ok =>
      [Event.find_ndr] ++
        (if args.verbose then [Event.print_final args.latency] else []) ++
        [Event.disconnect, Event.print passMsg]
  | SearchOutcome.stlError msg =>
      [Event.find_ndr, Event.print msg, Event.disconnect]

/-- The final outcome of a run that reached the search. -/
def searchOutcomeOf (env : Env) (args : Args) : Outcome :=
  match env.findNdrOutcome with
  | SearchOutcome.ok =>
      Outcome.ret (if args.output = Option.some "json"
        then Option.some env.results_json else Option.none)
  | SearchOutcome.stlError _ => Outcome.exit 1

lemma selectPorts_isOk (bi : List (Int × Int)) (pl : Option (List Int))
    (hbi : bi ≠ []) : ∃ d p, selectPorts bi pl = Except.ok (d, p) := by
  unfold selectPorts
  by_cases h : pyListTruthy pl = true
  · rw [if_pos h]
    exact ⟨_, _, rfl⟩
  · rw [if_neg h]
    match bi, hbi with
    | (a, b) :: rest, _ => exact ⟨[a], [a, b], rfl⟩

lemma build_streams_isOk (env : Env) (size vm : PyVal)
    (a b c d : Option String) (dir : Int) (hv : vm.truthy = true) :
    build_streams_for_bench env size vm a b c d dir =
      Except.ok (env.get_streams
        (let b0 := env.mkSTLBench
         let b1 := if optStrTruthy a then
             { b0 with ip_range := { b0.ip_range with
                 src := { b0.ip_range.src with start := a.getD "" } } } else b0
         let b2 := if optStrTruthy b then
             { b1 with ip_range := { b1.ip_range with
                 src := { b1.ip_range.src with end_ := b.getD "" } } } else b1
         let b3 := if optStrTruthy c then
             { b2 with ip_range := { b2.ip_range with
                 dst := { b2.ip_range.dst with start := c.getD "" } } } else b2
         if optStrTruthy d then
             { b3 with ip_range := { b3.ip_range with
                 dst := { b3.ip_range.dst with end_ := d.getD "" } } } else b3)
        size vm dir) := by
  unfold build_streams_for_bench
  rw [if_pos hv]

/-- Any run whose port list passes the even-length gate, whose `vm` is
truthy, and whose port map is non-empty reaches the search, and its trace
and outcome decompose as setup followed by the search-dependent tail. -/
lemma run_tool_shape (env : Env) (args : Args)
    (hp : pyListTruthy args.ports_list = true →
      (args.ports_list.getD []).length % 2 = 0)
    (hv : args.vm.truthy = true) (hbi : env.bi ≠ []) :
    ∃ d p s0,
      selectPorts env.bi args.ports_list = Except.ok (d, p) ∧
      build_streams_for_bench env args.size args.vm args.fe_src_start_ip
        args.fe_src_stop_ip args.fe_dst_start_ip args.fe_dst_stop_ip 0 =
        Except.ok s0 ∧
      run_tool env args =
        (setupTrace args d p s0 ++ searchTail env args,
         searchOutcomeOf env args) := by
  obtain ⟨d, p, hsel⟩ := selectPorts_isOk env.bi args.ports_list hbi
  have hbld := build_streams_isOk env args.size args.vm args.fe_src_start_ip
    args.fe_src_stop_ip args.fe_dst_start_ip args.fe_dst_stop_ip 0 hv
  refine ⟨d, p, _, hsel, hbld, ?_⟩
  have hc : (pyListTruthy args.ports_list &&
      ((args.ports_list.getD []).length % 2 != 0)) = false := by
    by_cases h : pyListTruthy args.ports_list = true
    · simp [h, hp h]
    · simp [Bool.not_eq_true] at h
      simp [h]
  unfold run_tool ndr_benchmark_test
  rw [hc]
  simp only [Bool.false_eq_true, if_false, hsel, hbld]
  cases ho : env.findNdrOutcome with
  | ok =>
      simp [setupTrace, searchTail, searchOutcomeOf, configOf, ho]
  | stlError msg =>
      simp [setupTrace, searchTail, searchOutcomeOf, configOf, ho]

/-! Concrete fixtures used by the witness theorems. -/

/-- A concrete `ndr.STLBench()` with the module's default ip ranges. -/
def wBench : STLBench :=
  ⟨⟨⟨"16.0.0.1", "16.0.0.254"⟩, ⟨"48.0.0.1", "48.0.0.254"⟩⟩⟩

/-- A concrete environment whose search succeeds. -/
def wEnvOk : Env :=
  { mkSTLBench := wBench,
    get_streams := fun _ _ _ _ => [Stream.bench 0, Stream.bench 1],
    bi := [(0, 1)],
    findNdrOutcome := SearchOutcome.ok,
    results_json := "serialized-results" }

/-- A concrete environment whose search raises `STLError`. -/
def wEnvErr : Env :=
  { wEnvOk with findNdrOutcome := SearchOutcome.stlError "STLError: connection lost" }

/-- A concrete command line: the parser's defaults with a truthy `-fe`. -/
def wArgs : Args :=
  { server := "127.0.0.1", core_mask := PyVal.none, pdr := 1,
    iteration_duration := 20, ndr_results := 1, setup_name := "trex",
    first_run_duration := 20, verbose := false, max_iterations := 10,
    pdr_error := 1, q_ful_resolution := 2, latency := true,
    vm := PyVal.str "cached", size := PyVal.int 64,
    fe_src_start_ip := Option.none, fe_src_stop_ip := Option.none,
    fe_dst_start_ip := Option.none, fe_dst_stop_ip := Option.none,
    drop_rate_interval := PyVal.int 10, output := Option.none,
    ports_list := Option.none }

/-- C1: with a non-empty odd-length explicit port list the driver only
prints "illegal ports list" and returns `None`: it never connects, resets,
maps ports, builds or attaches streams, or invokes the external search. -/
theorem C1_odd_ports_aborts (env : Env) (args : Args) (l : List Int)
    (hl : args.ports_list = Option.some l) (hne : l ≠ [])
    (hodd : l.length % 2 = 1) :
    run_tool env args =
      ([Event.print "illegal ports list"], Outcome.ret Option.none) ∧
    Event.connect ∉ (run_tool env args).1 ∧
    Event.reset ∉ (run_tool env args).1 ∧
    Event.map_ports ∉ (run_tool env args).1 ∧
    (∀ s, Event.build_streams s ∉ (run_tool env args).1) ∧
    (∀ s d, Event.add_streams s d ∉ (run_tool env args).1) ∧
    Event.find_ndr ∉ (run_tool env args).1 := by
  have hc : (pyListTruthy args.ports_list &&
      ((args.ports_list.getD []).length % 2 != 0)) = true := by
    simp [pyListTruthy, hl, hne, hodd]
  have heq : run_tool env args =
      ([Event.print "illegal ports list"], Outcome.ret Option.none) := by
    unfold run_tool ndr_benchmark_test
    rw [hc]
    simp
  refine ⟨heq, ?_, ?_, ?_, ?_, ?_, ?_⟩ <;> rw [heq] <;> simp

/-- Witness for C1 at the odd port list `[0, 1, 2]`. -/
theorem C1_odd_ports_aborts_witness :
    ({ wArgs with ports_list := Option.some [0, 1, 2] } : Args).ports_list =
      Option.some [0, 1, 2] ∧
    ([0, 1, 2] : List Int) ≠ [] ∧ ([0, 1, 2] : List Int).length % 2 = 1 ∧
    (run_tool wEnvOk { wArgs with ports_list := Option.some [0, 1, 2] } =
      ([Event.print "illegal ports list"], Outcome.ret Option.none) ∧
    Event.connect ∉
      (run_tool wEnvOk { wArgs with ports_list := Option.some [0, 1, 2] }).1 ∧
    Event.reset ∉
      (run_tool wEnvOk { wArgs with ports_list := Option.some [0, 1, 2] }).1 ∧
    Event.map_ports ∉
      (run_tool wEnvOk { wArgs with ports_list := Option.some [0, 1, 2] }).1 ∧
    (∀ s, Event.build_streams s ∉
      (run_tool wEnvOk { wArgs with ports_list := Option.some [0, 1, 2] }).1) ∧
    (∀ s d, Event.add_streams s d ∉
      (run_tool wEnvOk { wArgs with ports_list := Option.some [0, 1, 2] }).1) ∧
    Event.find_ndr ∉
      (run_tool wEnvOk { wArgs with ports_list := Option.some [0, 1, 2] }).1) :=
  ⟨rfl, by decide, by decide,
   C1_odd_ports_aborts wEnvOk { wArgs with ports_list := Option.some [0, 1, 2] }
     [0, 1, 2] rfl (by decide) (by decide)⟩

/-- C8: `build_streams_for_bench` with a falsy `vm` (empty string, `None`,
`False`, zero) never binds `stl_bench` and raises `NameError` instead of
returning a stream list. -/
theorem C8_falsy_vm_raises (env : Env) (size vm : PyVal)
    (a b c d : Option String) (dir : Int) (hv : vm.truthy = false) :
    build_streams_for_bench env size vm a b c d dir =
      Except.error (PyError.nameError "stl_bench") := by
  unfold build_streams_for_bench
  rw [if_neg (by simp [hv])]

/-- Witness for C8 at `vm = ''`. -/
theorem C8_falsy_vm_raises_witness :
    (PyVal.str "").truthy = false ∧
    build_streams_for_bench wEnvOk (PyVal.int 64) (PyVal.str "")
      Option.none Option.none Option.none Option.none 0 =
      Except.error (PyError.nameError "stl_bench") :=
  ⟨by decide,
   C8_falsy_vm_raises wEnvOk (PyVal.int 64) (PyVal.str "")
     Option.none Option.none Option.none Option.none 0 (by decide)⟩

/-- C9: `setup_name` and `max_iterations` have no effect: two runs
differing only in those two arguments produce identical traces (streams,
ports, constructed `NdrBenchConfig`) and identical outcomes. -/
theorem C9_setup_name_max_iterations_unused (env : Env) (args : Args)
    (s : String) (m : Int) :
    run_tool env { args with setup_name := s, max_iterations := m } =
      run_tool env args := rfl

/-- C10: an explicit empty port list behaves exactly like no port list:
the even-length check is skipped, the run proceeds, and port selection
takes the first bidirectional pair of the map, with its first element as
the transmit side. -/
theorem C10_empty_ports_auto_discovery (env : Env) (args : Args)
    (x y : Int) (rest : List (Int × Int)) (hbi : env.bi = (x, y) :: rest) :
    run_tool env { args with ports_list := Option.some [] } =
      run_tool env { args with ports_list := Option.none } ∧
    selectPorts env.bi (Option.some []) = Except.ok ([x], [x, y]) ∧
    Event.select_ports [x] [x, y] ∈
      (run_tool env { args with ports_list := Option.some [] }).1 := by
  refine ⟨rfl, by simp [selectPorts, pyListTruthy, hbi], ?_⟩
  unfold run_tool ndr_benchmark_test
  simp only [pyListTruthy, List.isEmpty_nil, Bool.not_true, Bool.false_and,
    Bool.false_eq_true, if_false]
  have hsel : selectPorts env.bi (Option.some []) = Except.ok ([x], [x, y]) := by
    simp [selectPorts, pyListTruthy, hbi]
  rw [hsel]
  cases hb : build_streams_for_bench env args.size args.vm args.fe_src_start_ip
      args.fe_src_stop_ip args.fe_dst_start_ip args.fe_dst_stop_ip 0 with
  | error e => simp
  | ok s0 => cases env.findNdrOutcome <;> simp

/-- Witness for C10 at the port map `[(0, 1)]`. -/
theorem C10_empty_ports_auto_discovery_witness :
    wEnvOk.bi = (0, 1) :: [] ∧
    (run_tool wEnvOk { wArgs with ports_list := Option.some [] } =
      run_tool wEnvOk { wArgs with ports_list := Option.none } ∧
    selectPorts wEnvOk.bi (Option.some []) = Except.ok ([0], [0, 1]) ∧
    Event.select_ports [0] [0, 1] ∈
      (run_tool wEnvOk { wArgs with ports_list := Option.some [] }).1) :=
  ⟨rfl, C10_empty_ports_auto_discovery wEnvOk wArgs 0 1 [] rfl⟩

/-- C2: when `find_ndr` raises `STLError`, the driver prints the error,
the `finally` block still runs `c.disconnect()` as the last action, and
the propagated `sys.exit(1)` makes the process exit with code 1. -/
theorem C2_stl_error_prints_exits_disconnects (env : Env) (args : Args)
    (msg : String)
    (hp : pyListTruthy args.ports_list = true →
      (args.ports_list.getD []).length % 2 = 0)
    (hv : args.vm.truthy = true) (hbi : env.bi ≠ [])
    (he : env.findNdrOutcome = SearchOutcome.stlError msg) :
    (run_tool env args).2 = Outcome.exit 1 ∧
    ∃ pre, (run_tool env args).1 =
      pre ++ [Event.find_ndr, Event.print msg, Event.disconnect] := by
  obtain ⟨d, p, s0, -, -, heq⟩ := run_tool_shape env args hp hv hbi
  rw [heq]
  exact ⟨by simp [searchOutcomeOf, he],
    ⟨setupTrace args d p s0, by simp [searchTail, he]⟩⟩

/-- Witness for C2 in the environment whose search raises `STLError`. -/
theorem C2_stl_error_prints_exits_disconnects_witness :
    (pyListTruthy wArgs.ports_list = true →
      (wArgs.ports_list.getD []).length % 2 = 0) ∧
    wArgs.vm.truthy = true ∧ wEnvErr.bi ≠ [] ∧
    wEnvErr.findNdrOutcome = SearchOutcome.stlError "STLError: connection lost" ∧
    ((run_tool wEnvErr wArgs).2 = Outcome.exit 1 ∧
     ∃ pre, (run_tool wEnvErr wArgs).1 =
       pre ++ [Event.find_ndr, Event.print "STLError: connection lost",
         Event.disconnect]) :=
  ⟨by decide, by decide, by decide, rfl,
   C2_stl_error_prints_exits_disconnects wEnvErr wArgs
     "STLError: connection lost" (by decide) (by decide) (by decide) rfl⟩

/-- C3: every run that reaches the search invokes `c.disconnect()` exactly
once, through the `finally` block, whether the search returns normally or
raises `STLError`. -/
theorem C3_disconnect_exactly_once (env : Env) (args : Args)
    (hp : pyListTruthy args.ports_list = true →
      (args.ports_list.getD []).length % 2 = 0)
    (hv : args.vm.truthy = true) (hbi : env.bi ≠ []) :
    (run_tool env args).1.count Event.disconnect = 1 := by
  obtain ⟨d, p, s0, -, -, heq⟩ := run_tool_shape env args hp hv hbi
  rw [heq]
  cases ho : env.findNdrOutcome with
  | ok =>
      by_cases hvb : args.verbose = true <;>
        simp [setupTrace, searchTail, ho, hvb, List.count_append,
          List.count_cons]
  | stlError msg =>
      simp [setupTrace, searchTail, ho, List.count_append, List.count_cons]

/-- Witness for C3 in the environment whose search succeeds. -/
theorem C3_disconnect_exactly_once_witness :
    (pyListTruthy wArgs.ports_list = true →
      (wArgs.ports_list.getD []).length % 2 = 0) ∧
    wArgs.vm.truthy = true ∧ wEnvOk.bi ≠ [] ∧
    (run_tool wEnvOk wArgs).1.count Event.disconnect = 1 :=
  ⟨by decide, by decide, by decide,
   C3_disconnect_exactly_once wEnvOk wArgs (by decide) (by decide) (by decide)⟩

/-- C4: when the search completes normally, the driver returns the
JSON-serialized results exactly when `output == 'json'`, and returns
`None` for every other `output` value. -/
theorem C4_json_return_iff_requested (env : Env) (args : Args)
    (hp : pyListTruthy args.ports_list = true →
      (args.ports_list.getD []).length % 2 = 0)
    (hv : args.vm.truthy = true) (hbi : env.bi ≠ [])
    (he : env.findNdrOutcome = SearchOutcome.ok) :
    ((run_tool env args).2 = Outcome.ret (Option.some env.results_json) ↔
      args.output = Option.some "json") ∧
    (args.output ≠ Option.some "json" →
      (run_tool env args).2 = Outcome.ret Option.none) := by
  obtain ⟨d, p, s0, -, -, heq⟩ := run_tool_shape env args hp hv hbi
  rw [heq]
  by_cases h : args.output = Option.some "json" <;>
    simp [searchOutcomeOf, he, h]

/-- Witness for C4: with `output = 'json'` the JSON result is returned. -/
theorem C4_json_return_iff_requested_witness :
    (pyListTruthy ({ wArgs with output := Option.some "json" } : Args).ports_list = true →
      (({ wArgs with output := Option.some "json" } : Args).ports_list.getD []).length % 2 = 0) ∧
    ({ wArgs with output := Option.some "json" } : Args).vm.truthy = true ∧
    wEnvOk.bi ≠ [] ∧ wEnvOk.findNdrOutcome = SearchOutcome.ok ∧
    (((run_tool wEnvOk { wArgs with output := Option.some "json" }).2 =
        Outcome.ret (Option.some wEnvOk.results_json) ↔
      ({ wArgs with output := Option.some "json" } : Args).output =
        Option.some "json") ∧
    (({ wArgs with output := Option.some "json" } : Args).output ≠
        Option.some "json" →
      (run_tool wEnvOk { wArgs with output := Option.some "json" }).2 =
        Outcome.ret Option.none)) :=
  ⟨by decide, by decide, by decide, rfl,
   C4_json_return_iff_requested wEnvOk { wArgs with output := Option.some "json" }
     (by decide) (by decide) (by decide) rfl⟩

/-- C5: with the latency flag set, the attached stream list is exactly the
builder's primary streams, in order, with the single-burst
latency/flow-stats stream (`name='rx'`, `pg_id=5`, 1000 packets at
1000 pps) appended at the end. -/
theorem C5_latency_stream_appended (env : Env) (args : Args)
    (hp : pyListTruthy args.ports_list = true →
      (args.ports_list.getD []).length % 2 = 0)
    (hv : args.vm.truthy = true) (hbi : env.bi ≠ [])
    (hl : args.latency = true) :
    ∃ d p s0,
      build_streams_for_bench env args.size args.vm args.fe_src_start_ip
        args.fe_src_stop_ip args.fe_dst_start_ip args.fe_dst_stop_ip 0 =
        Except.ok s0 ∧
      Event.build_streams s0 ∈ (run_tool env args).1 ∧
      Event.add_streams (s0 ++ [latencyStream]) d ∈ (run_tool env args).1 ∧
      selectPorts env.bi args.ports_list = Except.ok (d, p) ∧
      latencyStream = Stream.singleBurstLatency "rx" 5 1000 1000
        "Ether/IP(src=16.0.0.1,dst=48.0.0.1)/UDP(dport=12,sport=1025)/at_least_16_bytes_payload_needed" := by
  obtain ⟨d, p, s0, hsel, hbld, heq⟩ := run_tool_shape env args hp hv hbi
  refine ⟨d, p, s0, hbld, ?_, ?_, hsel, rfl⟩ <;> rw [heq] <;>
    simp [setupTrace, streamsFor, hl]

/-- Witness for C5 with the latency flag set. -/
theorem C5_latency_stream_appended_witness :
    (pyListTruthy wArgs.ports_list = true →
      (wArgs.ports_list.getD []).length % 2 = 0) ∧
    wArgs.vm.truthy = true ∧ wEnvOk.bi ≠ [] ∧ wArgs.latency = true ∧
    ∃ d p s0,
      build_streams_for_bench wEnvOk wArgs.size wArgs.vm wArgs.fe_src_start_ip
        wArgs.fe_src_stop_ip wArgs.fe_dst_start_ip wArgs.fe_dst_stop_ip 0 =
        Except.ok s0 ∧
      Event.build_streams s0 ∈ (run_tool wEnvOk wArgs).1 ∧
      Event.add_streams (s0 ++ [latencyStream]) d ∈ (run_tool wEnvOk wArgs).1 ∧
      selectPorts wEnvOk.bi wArgs.ports_list = Except.ok (d, p) ∧
      latencyStream = Stream.singleBurstLatency "rx" 5 1000 1000
        "Ether/IP(src=16.0.0.1,dst=48.0.0.1)/UDP(dport=12,sport=1025)/at_least_16_bytes_payload_needed" :=
  ⟨by decide, by decide, by decide, rfl,
   C5_latency_stream_appended wEnvOk wArgs (by decide) (by decide)
     (by decide) rfl⟩

/-- C6 counterexample: in a run whose search raises `STLError`, the
`sys.exit(1)` in the `except` clause propagates through the `finally`
block, so control never reaches the `if passed:` report and the fail
message is NOT printed, contradicting the claim that a fail message is
printed when the search fails. -/
theorem C6_fail_message_never_printed_cex :
    wEnvErr.findNdrOutcome = SearchOutcome.stlError "STLError: connection lost" ∧
    (run_tool wEnvErr wArgs).2 = Outcome.exit 1 ∧
    Event.print failMsg ∉ (run_tool wEnvErr wArgs).1 ∧
    Event.print passMsg ∉ (run_tool wEnvErr wArgs).1 := by decide

/-- C6 amended: when the search completes normally the driver prints the
pass message immediately after disconnecting; when the search raises
`STLError` the driver prints the error, disconnects last, and the process
exits with code 1 before reaching the pass/fail report, so the fail
message is never printed. -/
theorem C6_report_after_disconnect (env : Env) (args : Args)
    (hp : pyListTruthy args.ports_list = true →
      (args.ports_list.getD []).length % 2 = 0)
    (hv : args.vm.truthy = true) (hbi : env.bi ≠ []) :
    (env.findNdrOutcome = SearchOutcome.ok →
      ∃ pre, (run_tool env args).1 =
        pre ++ [Event.disconnect, Event.print passMsg]) ∧
    (∀ msg, env.findNdrOutcome = SearchOutcome.stlError msg →
      (∃ pre, (run_tool env args).1 =
        pre ++ [Event.find_ndr, Event.print msg, Event.disconnect]) ∧
      (run_tool env args).2 = Outcome.exit 1 ∧
      (msg ≠ failMsg → Event.print failMsg ∉ (run_tool env args).1)) := by
  obtain ⟨d, p, s0, hsel, hbld, heq⟩ := run_tool_shape env args hp hv hbi
  constructor
  · intro ho
    refine ⟨setupTrace args d p s0 ++ [Event.find_ndr] ++
      (if args.verbose then [Event.print_final args.latency] else []), ?_⟩
    rw [heq]
    simp [searchTail, ho]
  · intro msg ho
    refine ⟨⟨setupTrace args d p s0, ?_⟩, ?_, ?_⟩
    · rw [heq]
      simp [searchTail, ho]
    · rw [heq]
      simp [searchOutcomeOf, ho]
    · intro hm
      rw [heq]
      simp only [setupTrace, searchTail, ho, List.mem_append, List.mem_cons,
        List.not_mem_nil, or_false, List.mem_singleton]
      intro h
      rcases h with h | h <;> simp_all [Event.print.injEq]

/-- Witness for the amended C6 in the environment whose search succeeds. -/
theorem C6_report_after_disconnect_witness :
    (pyListTruthy wArgs.ports_list = true →
      (wArgs.ports_list.getD []).length % 2 = 0) ∧
    wArgs.vm.truthy = true ∧ wEnvOk.bi ≠ [] ∧
    ((wEnvOk.findNdrOutcome = SearchOutcome.ok →
      ∃ pre, (run_tool wEnvOk wArgs).1 =
        pre ++ [Event.disconnect, Event.print passMsg]) ∧
    (∀ msg, wEnvOk.findNdrOutcome = SearchOutcome.stlError msg →
      (∃ pre, (run_tool wEnvOk wArgs).1 =
        pre ++ [Event.find_ndr, Event.print msg, Event.disconnect]) ∧
      (run_tool wEnvOk wArgs).2 = Outcome.exit 1 ∧
      (msg ≠ failMsg → Event.print failMsg ∉ (run_tool wEnvOk wArgs).1))) :=
  ⟨by decide, by decide, by decide,
   C6_report_after_disconnect wEnvOk wArgs (by decide) (by decide) (by decide)⟩

/-- C7: every run that reaches the search has the fixed prefix
connect, reset, map ports, select ports, build streams, attach streams,
construct config, invoke search — in that order — and disconnect occurs
only afterwards. -/
theorem C7_operation_order (env : Env) (args : Args)
    (hp : pyListTruthy args.ports_list = true →
      (args.ports_list.getD []).length % 2 = 0)
    (hv : args.vm.truthy = true) (hbi : env.bi ≠ []) :
    ∃ d p s0 tail,
      (run_tool env args).1 =
        [Event.connect, Event.reset, Event.map_ports, Event.select_ports d p,
         Event.build_streams s0,
         Event.add_streams (streamsFor args.latency s0) d,
         Event.mk_config (configOf args p), Event.find_ndr] ++ tail ∧
      Event.disconnect ∈ tail ∧
      selectPorts env.bi args.ports_list = Except.ok (d, p) ∧
      build_streams_for_bench env args.size args.vm args.fe_src_start_ip
        args.fe_src_stop_ip args.fe_dst_start_ip args.fe_dst_stop_ip 0 =
        Except.ok s0 := by
  obtain ⟨d, p, s0, hsel, hbld, heq⟩ := run_tool_shape env args hp hv hbi
  cases ho : env.findNdrOutcome with
  | ok =>
      refine ⟨d, p, s0,
        (if args.verbose then [Event.print_final args.latency] else []) ++
          [Event.disconnect, Event.print passMsg], ?_, by simp, hsel, hbld⟩
      rw [heq]
      simp [setupTrace, searchTail, ho]
  | stlError msg =>
      refine ⟨d, p, s0, [Event.print msg, Event.disconnect], ?_,
        by simp, hsel, hbld⟩
      rw [heq]
      simp [setupTrace, searchTail, ho]

/-- Witness for C7 in the environment whose search succeeds. -/
theorem C7_operation_order_witness :
    (pyListTruthy wArgs.ports_list = true →
      (wArgs.ports_list.getD []).length % 2 = 0) ∧
    wArgs.vm.truthy = true ∧ wEnvOk.bi ≠ [] ∧
    ∃ d p s0 tail,
      (run_tool wEnvOk wArgs).1 =
        [Event.connect, Event.reset, Event.map_ports, Event.select_ports d p,
         Event.build_streams s0,
         Event.add_streams (streamsFor wArgs.latency s0) d,
         Event.mk_config (configOf wArgs p), Event.find_ndr] ++ tail ∧
      Event.disconnect ∈ tail ∧
      selectPorts wEnvOk.bi wArgs.ports_list = Except.ok (d, p) ∧
      build_streams_for_bench wEnvOk wArgs.size wArgs.vm wArgs.fe_src_start_ip
        wArgs.fe_src_stop_ip wArgs.fe_dst_start_ip wArgs.fe_dst_stop_ip 0 =
        Except.ok s0 :=
  ⟨by decide, by decide, by decide,
   C7_operation_order wEnvOk wArgs (by decide) (by decide) (by decide)⟩

end Ndr
